import Mathlib

/-!
Verification of the AI vulnerability-scanner core (cf_ai_sentri).

This file gives a shallow embedding, in Lean 4, of the JavaScript source of
the scanner: the finding normalizer, the layered JSON extraction/repair
pipeline, the per-detector response-text resolvers, the three detector
entry points, and the scan orchestrator's merge/format/sort step.
JavaScript runtime values are modelled by the inductive type `JSVal`;
machine floating-point numbers are modelled by `ℚ` (plus an explicit `nan`
constructor), which is exact on every value the theorems touch.
-/

/-- A JavaScript runtime value: `undefined`, `null`, booleans, finite
numbers (modelled as rationals), `NaN`, strings, arrays and plain objects
(association lists in insertion order; property lookup takes the last
binding, matching JSON duplicate-key semantics). -/
inductive JSVal where
  | undefined : JSVal
  | null : JSVal
  | bool : Bool → JSVal
  | num : ℚ → JSVal
  | nan : JSVal
  | str : String → JSVal
  | arr : List JSVal → JSVal
  | obj : List (String × JSVal) → JSVal

/-- `true` exactly on the `undefined` constructor (used to model
`JSON.stringify(x) === undefined`). -/
def JSVal.isUndefined : JSVal → Bool
  | .undefined => true
  | _ => false

/-- JavaScript truthiness: `undefined`, `null`, `false`, `0`, `NaN` and the
empty string are falsy; every other value (including any array or object)
is truthy. -/
def truthy : JSVal → Bool
  | .undefined => false
  | .null => false
  | .bool b => b
  | .num q => q != 0
  | .nan => false
  | .str s => s != ""
  | .arr _ => true
  | .obj _ => true

/-- The JavaScript `a || b` operator on values. -/
def jsOr (a b : JSVal) : JSVal := if truthy a then a else b

/-- The JavaScript `a && b` operator on values. -/
def jsAnd (a b : JSVal) : JSVal := if truthy a then b else a

/-- Property access `v[k]` for a string key: on objects the last binding of
the key (JSON duplicate keys overwrite); `undefined` on every non-object
(none of the string/number wrapper properties are ever accessed by the
modelled code). -/
def jsGet : JSVal → String → JSVal
  | .obj kvs, k =>
    match kvs.reverse.find? (fun kv => kv.1 == k) with
    | some kv => kv.2
    | none => .undefined
  | _, _ => .undefined

/-- Optional chaining `v?.k`: `undefined` when `v` is `null`/`undefined`,
otherwise plain property access. -/
def jsOptGet (v : JSVal) (k : String) : JSVal :=
  match v with
  | .undefined => .undefined
  | .null => .undefined
  | _ => jsGet v k

/-- Index access `v[i]` for a numeric index: array element (or
`undefined` past the end); on objects the string key; `undefined`
otherwise. -/
def jsIdx (v : JSVal) (i : Nat) : JSVal :=
  match v with
  | .arr l => (l.get? i).getD .undefined
  | .obj _ => jsGet v (toString i)
  | _ => .undefined

/-- Optional chaining for index access `v?.[i]`. -/
def jsOptIdx (v : JSVal) (i : Nat) : JSVal :=
  match v with
  | .undefined => .undefined
  | .null => .undefined
  | _ => jsIdx v i

/-- The character `{` (written by code to keep brace handling explicit). -/
def lbrace : Char := Char.ofNat 123

/-- The character `}`. -/
def rbrace : Char := Char.ofNat 125

/-- Decimal representation of a rational, as JavaScript would print the
corresponding number for the values arising here: integers print with no
fractional part; rationals with a terminating decimal expansion (denominator
dividing a power of ten, exponent at most 30) print with a decimal point;
any other rational (which never arises from parsed JSON input in the
theorems below) falls back to a `num/den` marker. -/
def numRepr (q : ℚ) : String :=
  if q.den = 1 then toString q.num
  else
    match (List.range 31).find? (fun e => 10 ^ e % q.den == 0) with
    | some e =>
      let scaled : Int := q.num * Int.ofNat (10 ^ e / q.den)
      let sign := if scaled < 0 then "-" else ""
      let digits := toString scaled.natAbs
      let padded :=
        if digits.length ≤ e then String.mk (List.replicate (e + 1 - digits.length) '0') ++ digits
        else digits
      sign ++ String.mk (padded.data.take (padded.length - e)) ++ "." ++
        String.mk (padded.data.drop (padded.length - e))
    | none => toString q.num ++ "/" ++ toString q.den

mutual

/-- The JavaScript `String(v)` coercion: `"undefined"`, `"null"`,
`"true"`/`"false"`, decimal number representation, `"NaN"`, the string
itself, `Array.prototype.toString` (comma-joined elements, `null` and
`undefined` printing as empty) and `"[object Object]"` for plain objects. -/
def jsToString : JSVal → String
  | .undefined => "undefined"
  | .null => "null"
  | .bool b => if b then "true" else "false"
  | .num q => numRepr q
  | .nan => "NaN"
  | .str s => s
  | .arr l => String.intercalate "," (jsToStringArr l)
  | .obj _ => "[object Object]"

/-- Element-wise stringification used by `Array.prototype.toString`. -/
def jsToStringArr : List JSVal → List String
  | [] => []
  | .undefined :: vs => "" :: jsToStringArr vs
  | .null :: vs => "" :: jsToStringArr vs
  | v :: vs => jsToString v :: jsToStringArr vs

end

/-- Canonical finding record produced by `normalizeVulnerability`
(§3 of the spec: the wire fields `vulnerability_type, severity,
line_number, code_snippet, explanation, fix_suggestion, confidence`). -/
structure Finding where
  vulnerability_type : String
  severity : String
  line_number : Int
  code_snippet : String
  explanation : String
  fix_suggestion : String
  confidence : ℚ
deriving DecidableEq

/-- The frontend-format record produced by
`formatVulnerabilitiesForFrontend` in the worker. -/
structure FrontendVuln where
  vtype : String
  severity : String
  line : Int
  code_snippet : String
  message : String
  explanation : String
  fix_suggestion : String
  confidence : ℚ
deriving DecidableEq

/-- Whitespace as recognized by `\s`, `trim` and the leading-trim of
`parseInt`/`parseFloat` (ASCII subset; the modelled inputs contain no
exotic Unicode spaces). -/
def jsWhitespace (c : Char) : Bool :=
  c == ' ' || c == '\t' || c == '\n' || c == '\r' || c == '\x0b' || c == '\x0c'

/-- `String.prototype.trim`. -/
def jsTrim (s : String) : String :=
  String.mk (((s.data.dropWhile jsWhitespace).reverse.dropWhile jsWhitespace).reverse)

/-- ASCII uppercasing of one character (`toUpperCase` on the inputs
arising here). -/
def asciiUpper (c : Char) : Char :=
  if 'a' ≤ c ∧ c ≤ 'z' then Char.ofNat (c.toNat - 32) else c

/-- `String.prototype.toUpperCase` (ASCII). -/
def strToUpper (s : String) : String := String.mk (s.data.map asciiUpper)

/-- Whether the last character of a string is `c`
(`String.prototype.endsWith` with a one-character argument). -/
def lastCharIs (s : String) (c : Char) : Bool :=
  match s.data.getLast? with
  | some d => d == c
  | none => false

/-- Value of a list of decimal digit characters. -/
def digitsToNat (l : List Char) : Nat :=
  l.foldl (fun acc c => acc * 10 + (c.toNat - 48)) 0

/-- Maximal leading run of decimal digits, `none` when there is none. -/
def parseIntDigits (cs : List Char) : Option Nat :=
  let ds := cs.takeWhile Char.isDigit
  if ds.isEmpty then none else some (digitsToNat ds)

/-- Leading optional sign followed by digits. -/
def parseIntSigned : List Char → Option Int
  | '-' :: rest => (parseIntDigits rest).map (fun n => -(n : Int))
  | '+' :: rest => (parseIntDigits rest).map (fun n => (n : Int))
  | cs => (parseIntDigits cs).map (fun n => (n : Int))

/-- `parseInt(s, 10)` on a string: skip leading whitespace, optional sign,
maximal digit run; `none` models `NaN`. -/
def parseIntStr (s : String) : Option Int :=
  parseIntSigned (s.data.dropWhile jsWhitespace)

/-- Fractional value of a digit run after a decimal point (built with
`mkRat` so that it evaluates by kernel reduction). -/
def fracVal (fp : List Char) : ℚ :=
  mkRat (digitsToNat fp) (10 ^ fp.length)

/-- Unsigned decimal magnitude: `digits`, `digits.digits`, `.digits` or
`digits.`; `none` when no digit is present.  (Exponent suffixes, accepted
by `parseFloat` but produced by no input in this development, are not
modelled.) -/
def parseFloatMag (cs : List Char) : Option ℚ :=
  let ip := cs.takeWhile Char.isDigit
  let rest := cs.dropWhile Char.isDigit
  match ip, rest with
  | [], '.' :: rest2 =>
    let fp := rest2.takeWhile Char.isDigit
    if fp.isEmpty then none else some (fracVal fp)
  | [], _ => none
  | _, '.' :: rest2 =>
    let fp := rest2.takeWhile Char.isDigit
    some (mkRat (digitsToNat ip * 10 ^ fp.length + digitsToNat fp) (10 ^ fp.length))
  | _, _ => some (digitsToNat ip)

/-- Leading optional sign followed by a decimal magnitude. -/
def parseFloatSigned : List Char → Option ℚ
  | '-' :: rest => (parseFloatMag rest).map (fun q => -q)
  | '+' :: rest => parseFloatMag rest
  | cs => parseFloatMag cs

/-- `parseFloat(s)` on a string; `none` models `NaN`. -/
def parseFloatStr (s : String) : Option ℚ :=
  parseFloatSigned (s.data.dropWhile jsWhitespace)

/-- Truncation toward zero, the effect of `parseInt` on the decimal string
of a finite number. -/
def ratTrunc (q : ℚ) : Int := q.num.tdiv q.den

/-- `parseInt(v, 10)`: numbers go through their decimal string, which
truncates toward zero; `NaN` and digit-free strings give `none`; all other
values are coerced to a string first. -/
def parseIntJS : JSVal → Option Int
  | .num q => some (ratTrunc q)
  | .nan => none
  | v => parseIntStr (jsToString v)

/-- `parseFloat(v)`: numbers parse back to themselves exactly; `NaN` gives
`none`; all other values are coerced to a string first. -/
def parseFloatJS : JSVal → Option ℚ
  | .num q => some q
  | .nan => none
  | v => parseFloatStr (jsToString v)

/-- The closed severity enumeration of the canonical Finding record. -/
def validSeverities : List String := ["CRITICAL", "HIGH", "MEDIUM", "LOW"]

/-- `normalizeSeverity` from the agent modules:
`String(severity || '').toUpperCase().trim()`, kept when it is one of the
four enum values and replaced by `"HIGH"` otherwise. -/
def normalizeSeverity (severity : JSVal) : String :=
  let normalized := jsTrim (strToUpper (jsToString (jsOr severity (.str ""))))
  if normalized ∈ validSeverities then normalized else "HIGH"

/-- `normalizeConfidence` from the agent modules: `parseFloat`, defaulting
to `0.85` on `NaN` and clamping into `[0, 1]` otherwise. -/
def normalizeConfidence (confidence : JSVal) : ℚ :=
  match parseFloatJS confidence with
  | none => mkRat 17 20
  | some num =>
    let upper := if (1 : ℚ) ≤ num then 1 else num
    if upper ≤ 0 then 0 else upper

/-- `isValidVulnerability` from the agent modules: the candidate must be a
non-null object (arrays pass the `typeof` test but then fail the field
checks) with a truthy `vulnerability_type`, `line_number` or
`code_snippet`. -/
def isValidVulnerability (o : JSVal) : Bool :=
  match o with
  | .obj _ | .arr _ =>
    truthy (jsGet o "vulnerability_type") || truthy (jsGet o "line_number") ||
      truthy (jsGet o "code_snippet")
  | _ => false

/-- Per-detector constants: the default `vulnerability_type` used by the
normalizer, and the fixed fields of the stage-6 synthetic findings (the
SQL agent additionally recovers a code snippet with a dedicated regex). -/
structure AgentParams where
  defaultType : String
  synthSeverity : String
  synthExplanation : String
  synthFix : String
  synthUsesSnippet : Bool
  failPrefix : String

/-- Constants of `src/agents/sql-injection-agent.js`. -/
def sqlAgent : AgentParams :=
  ⟨"SQL Injection", "CRITICAL", "SQL injection vulnerability detected",
    "Use parameterized queries instead of string concatenation", true,
    "SQL Injection scan failed: "⟩

/-- Constants of the XSS agent module. -/
def xssAgent : AgentParams :=
  ⟨"Cross-Site Scripting (XSS)", "HIGH", "XSS vulnerability detected",
    "Use textContent, DOMPurify, or proper escaping", false,
    "XSS scan failed: "⟩

/-- Constants of the hardcoded-credentials agent module. -/
def credAgent : AgentParams :=
  ⟨"Hard-coded Credentials", "HIGH", "Hard-coded credential detected",
    "Use environment variables instead", false,
    "Credentials scan failed: "⟩

/-- `normalizeVulnerability` from the agent modules.  `parseInt(x,10) || 0`
collapses to `(parseIntJS x).getD 0` because a parsed `0` and the `|| 0`
default coincide. -/
def normalizeVulnerability (p : AgentParams) (vuln : JSVal) : Finding :=
  { vulnerability_type := jsToString (jsOr (jsGet vuln "vulnerability_type") (.str p.defaultType))
    severity := normalizeSeverity (jsGet vuln "severity")
    line_number := (parseIntJS (jsGet vuln "line_number")).getD 0
    code_snippet := jsToString (jsOr (jsGet vuln "code_snippet") (.str ""))
    explanation := jsToString (jsOr (jsGet vuln "explanation") (.str ""))
    fix_suggestion := jsToString (jsOr (jsGet vuln "fix_suggestion") (.str ""))
    confidence := normalizeConfidence (jsGet vuln "confidence") }

/-- JSON insignificant whitespace. -/
def jsonWs (c : Char) : Bool :=
  c == ' ' || c == '\t' || c == '\n' || c == '\r'

/-- Single-character JSON string escapes. -/
def escChar (e : Char) : Option Char :=
  if e == '"' then some '"'
  else if e == '\\' then some '\\'
  else if e == '/' then some '/'
  else if e == 'b' then some '\x08'
  else if e == 'f' then some '\x0c'
  else if e == 'n' then some '\n'
  else if e == 'r' then some '\r'
  else if e == 't' then some '\t'
  else none

/-- Hexadecimal digit value. -/
def hexDigitVal (c : Char) : Option Nat :=
  if c.isDigit then some (c.toNat - 48)
  else if 'a' ≤ c ∧ c ≤ 'f' then some (c.toNat - 87)
  else if 'A' ≤ c ∧ c ≤ 'F' then some (c.toNat - 55)
  else none

/-- Body of a JSON string after the opening quote: plain characters,
backslash escapes and `\uXXXX` (an invalid surrogate code collapses to the
null character, which no theorem here depends on); control characters and
a missing closing quote are parse errors. -/
def parseJStringChars : Nat → List Char → List Char → Option (String × List Char)
  | 0, _, _ => none
  | fuel + 1, acc, cs =>
    match cs with
    | [] => none
    | c :: rest =>
      if c == '"' then some (String.mk acc.reverse, rest)
      else if c == '\\' then
        match rest with
        | 'u' :: h1 :: h2 :: h3 :: h4 :: rest2 =>
          match hexDigitVal h1, hexDigitVal h2, hexDigitVal h3, hexDigitVal h4 with
          | some a, some b, some c3, some d =>
            parseJStringChars fuel (Char.ofNat (((a * 16 + b) * 16 + c3) * 16 + d) :: acc) rest2
          | _, _, _, _ => none
        | e :: rest2 =>
          match escChar e with
          | some ec => parseJStringChars fuel (ec :: acc) rest2
          | none => none
        | [] => none
      else if c.toNat < 32 then none
      else parseJStringChars fuel (c :: acc) rest

/-- JSON integer part: a lone `0` or a nonzero digit followed by digits. -/
def parseJInt : List Char → Option (Nat × List Char)
  | '0' :: rest => some (0, rest)
  | c :: rest =>
    if c.isDigit then
      some (digitsToNat (c :: rest.takeWhile Char.isDigit), rest.dropWhile Char.isDigit)
    else none
  | [] => none

/-- Optional JSON fraction part, returned as its digit run (a bare `.` is
a parse error). -/
def parseJFrac : List Char → Option (List Char × List Char)
  | '.' :: rest =>
    let ds := rest.takeWhile Char.isDigit
    if ds.isEmpty then none else some (ds, rest.dropWhile Char.isDigit)
  | cs => some ([], cs)

/-- Digits of a JSON exponent after an optional sign. -/
def parseJExpDigits (sign : Int) (cs : List Char) : Option (Int × List Char) :=
  let ds := cs.takeWhile Char.isDigit
  if ds.isEmpty then none else some (sign * (digitsToNat ds : Int), cs.dropWhile Char.isDigit)

/-- Optional JSON exponent part. -/
def parseJExp : List Char → Option (Int × List Char)
  | c :: rest =>
    if c == 'e' || c == 'E' then
      match rest with
      | '+' :: r2 => parseJExpDigits 1 r2
      | '-' :: r2 => parseJExpDigits (-1) r2
      | r2 => parseJExpDigits 1 r2
    else some (0, c :: rest)
  | [] => some (0, [])

/-- The value `m / 10 ^ L * 10 ^ e`, assembled with integer arithmetic and
one `mkRat`. -/
def scaledRat (m : Nat) (L : Nat) (e : Int) : ℚ :=
  if 0 ≤ e then mkRat (m * 10 ^ e.toNat) (10 ^ L)
  else mkRat m (10 ^ (L + (-e).toNat))

/-- Unsigned JSON number. -/
def parseJNumMag (cs : List Char) : Option (ℚ × List Char) :=
  match parseJInt cs with
  | none => none
  | some (i, r1) =>
    match parseJFrac r1 with
    | none => none
    | some (fd, r2) =>
      match parseJExp r2 with
      | none => none
      | some (e, r3) =>
        some (scaledRat (i * 10 ^ fd.length + digitsToNat fd) fd.length e, r3)

/-- JSON number with optional leading minus. -/
def parseJNumber : List Char → Option (ℚ × List Char)
  | '-' :: r => (parseJNumMag r).map (fun pr => (-pr.1, pr.2))
  | cs => parseJNumMag cs

/-- Consume an exact character sequence. -/
def listStripPrefix : List Char → List Char → Option (List Char)
  | [], cs => some cs
  | l :: ls, c :: cs => if l == c then listStripPrefix ls cs else none
  | _ :: _, [] => none

mutual

/-- One JSON value, starting at a non-whitespace character, returning the
unconsumed remainder.  Fuel only bounds recursion depth; it is always
sufficient for the initial fuel chosen in `jsonParse`. -/
def parseJValue : Nat → List Char → Option (JSVal × List Char)
  | 0, _ => none
  | fuel + 1, cs =>
    match cs with
    | [] => none
    | c :: rest =>
      if c == '"' then
        (parseJStringChars (rest.length + 1) [] rest).map (fun pr => (JSVal.str pr.1, pr.2))
      else if c == lbrace then
        match rest.dropWhile jsonWs with
        | c2 :: r2 => if c2 == rbrace then some (.obj [], r2) else parseJMembers fuel (c2 :: r2) []
        | [] => none
      else if c == '[' then
        match rest.dropWhile jsonWs with
        | c2 :: r2 => if c2 == ']' then some (.arr [], r2) else parseJElements fuel (c2 :: r2) []
        | [] => none
      else if c == 't' then (listStripPrefix "rue".data rest).map (fun r => (JSVal.bool true, r))
      else if c == 'f' then (listStripPrefix "alse".data rest).map (fun r => (JSVal.bool false, r))
      else if c == 'n' then (listStripPrefix "ull".data rest).map (fun r => (JSVal.null, r))
      else (parseJNumber (c :: rest)).map (fun pr => (JSVal.num pr.1, pr.2))

/-- Non-empty JSON object member list (after the opening brace). -/
def parseJMembers : Nat → List Char → List (String × JSVal) → Option (JSVal × List Char)
  | 0, _, _ => none
  | fuel + 1, cs, acc =>
    match cs.dropWhile jsonWs with
    | '"' :: r1 =>
      match parseJStringChars (r1.length + 1) [] r1 with
      | none => none
      | some (k, r2) =>
        match r2.dropWhile jsonWs with
        | ':' :: r3 =>
          match parseJValue fuel (r3.dropWhile jsonWs) with
          | none => none
          | some (v, r4) =>
            match r4.dropWhile jsonWs with
            | ',' :: r5 => parseJMembers fuel r5 (acc ++ [(k, v)])
            | c :: r5 => if c == rbrace then some (.obj (acc ++ [(k, v)]), r5) else none
            | [] => none
        | _ => none
    | _ => none

/-- Non-empty JSON array element list (after the opening bracket). -/
def parseJElements : Nat → List Char → List JSVal → Option (JSVal × List Char)
  | 0, _, _ => none
  | fuel + 1, cs, acc =>
    match parseJValue fuel (cs.dropWhile jsonWs) with
    | none => none
    | some (v, r1) =>
      match r1.dropWhile jsonWs with
      | ',' :: r2 => parseJElements fuel r2 (acc ++ [v])
      | ']' :: r2 => some (.arr (acc ++ [v]), r2)
      | _ => none

end

/-- `JSON.parse(s)`: a single value surrounded by optional whitespace;
`none` models a thrown `SyntaxError`. -/
def jsonParse (s : String) : Option JSVal :=
  match parseJValue (s.length + 2) (s.data.dropWhile jsonWs) with
  | some (v, rest) => if (rest.dropWhile jsonWs).isEmpty then some v else none
  | none => none

/-- The backtick character. -/
def backquote : Char := Char.ofNat 96

/-- The three-backtick markdown fence marker. -/
def fenceMark : List Char := [backquote, backquote, backquote]

/-- Case-insensitive variant of `listStripPrefix` (ASCII). -/
def listStripPrefixCI : List Char → List Char → Option (List Char)
  | [], cs => some cs
  | l :: ls, c :: cs => if l.toLower == c.toLower then listStripPrefixCI ls cs else none
  | _ :: _, [] => none

/-- Index of the first occurrence of `pat` in the list, scanning from
offset `i`. -/
def indexOfSubAux (pat : List Char) : List Char → Nat → Option Nat
  | [], i => if pat.isEmpty then some i else none
  | c :: rest, i =>
    if (listStripPrefix pat (c :: rest)).isSome then some i
    else indexOfSubAux pat rest (i + 1)

/-- Index of the first occurrence of `pat` in `cs`. -/
def indexOfSub (pat cs : List Char) : Option Nat := indexOfSubAux pat cs 0

/-- Index of the last character satisfying `p`. -/
def lastIdxWhere (p : Char → Bool) (cs : List Char) : Option Nat :=
  match cs.reverse.findIdx? p with
  | some k => some (cs.length - 1 - k)
  | none => none

/-- The markdown-unwrap step of the extractor: the first match of
the fence pattern (open fence, optional case-insensitive `json` tag,
whitespace, lazily captured interior, close fence), trimmed; the input is
returned unchanged when no complete fenced block exists. -/
def unwrapCodeFence (s : String) : String :=
  let cs := s.data
  match indexOfSub fenceMark cs with
  | none => s
  | some i =>
    let after := cs.drop (i + 3)
    let after2 := match listStripPrefixCI "json".data after with
      | some r => r
      | none => after
    let after3 := after2.dropWhile jsWhitespace
    match indexOfSub fenceMark after3 with
    | none => s
    | some j => jsTrim (String.mk (after3.take j))

/-- The characters of the JSON key `"line_number"`, quotes included. -/
def lineNumberKey : List Char := ('"' :: "line_number".data) ++ ['"']

/-- The characters of the JSON key `"vulnerability_type"`. -/
def vulnTypeKey : List Char := ('"' :: "vulnerability_type".data) ++ ['"']

/-- The characters of the JSON key `"explanation"`. -/
def explKey : List Char := ('"' :: "explanation".data) ++ ['"']

/-- The characters of the JSON key `"code_snippet"`. -/
def snippetKey : List Char := ('"' :: "code_snippet".data) ++ ['"']

/-- One match attempt of the line-number pattern
(key, optional whitespace, colon, optional whitespace, digit run). -/
def matchKeyDigits (cs : List Char) : Option (Nat × List Char) :=
  match listStripPrefix lineNumberKey cs with
  | none => none
  | some r1 =>
    match r1.dropWhile jsWhitespace with
    | ':' :: r3 =>
      let r4 := r3.dropWhile jsWhitespace
      let ds := r4.takeWhile Char.isDigit
      if ds.isEmpty then none else some (digitsToNat ds, r4.dropWhile Char.isDigit)
    | _ => none

/-- Global scan for the line-number pattern, collecting distinct values in
first-occurrence order (the `foundLineNumbers` loop of the extractor). -/
def findLineNumbersAux : Nat → List Char → List Nat → List Nat
  | 0, _, acc => acc
  | _, [], acc => acc
  | fuel + 1, c :: cs, acc =>
    match matchKeyDigits (c :: cs) with
    | some (n, rest) => findLineNumbersAux fuel rest (if n ∈ acc then acc else acc ++ [n])
    | none => findLineNumbersAux fuel cs acc

/-- All distinct `"line_number": <digits>` values textually present. -/
def findLineNumbers (s : String) : List Nat :=
  findLineNumbersAux (s.length + 1) s.data []

/-- One match attempt of the per-object recovery pattern: an opening brace,
whitespace, the `vulnerability_type` key, a colon, a quoted value, then any
brace-free run up to a closing brace.  Returns the unconsumed suffix. -/
def matchVulnObject (cs : List Char) : Option (List Char) :=
  match cs with
  | [] => none
  | c :: r0 =>
    if c == lbrace then
      match listStripPrefix vulnTypeKey (r0.dropWhile jsWhitespace) with
      | none => none
      | some r2 =>
        match r2.dropWhile jsWhitespace with
        | ':' :: r4 =>
          match r4.dropWhile jsWhitespace with
          | '"' :: r6 =>
            match r6.dropWhile (fun ch => ch != '"') with
            | '"' :: r8 =>
              match r8.dropWhile (fun ch => ch != rbrace) with
              | c2 :: r10 => if c2 == rbrace then some r10 else none
              | [] => none
            | _ => none
          | _ => none
        | _ => none
    else none

/-- Global scan collecting every match of the per-object recovery pattern,
as substrings, left to right and non-overlapping. -/
def findVulnObjectsAux : Nat → List Char → List String → List String
  | 0, _, acc => acc
  | _, [], acc => acc
  | fuel + 1, c :: cs, acc =>
    match matchVulnObject (c :: cs) with
    | some rest =>
      findVulnObjectsAux fuel rest
        (acc ++ [String.mk ((c :: cs).take ((c :: cs).length - rest.length))])
    | none => findVulnObjectsAux fuel cs acc

/-- All stage-5 object-pattern matches in the cleaned text. -/
def findVulnObjects (s : String) : List String :=
  findVulnObjectsAux (s.length + 1) s.data []

/-- Tail of the explanation pattern after its key: colon and a quoted
capture. -/
def matchExplTail (cs : List Char) : Option String :=
  match cs.dropWhile jsWhitespace with
  | ':' :: r2 =>
    match r2.dropWhile jsWhitespace with
    | '"' :: r4 =>
      match r4.dropWhile (fun ch => ch != '"') with
      | '"' :: _ => some (String.mk (r4.takeWhile (fun ch => ch != '"')))
      | _ => none
    | _ => none
  | _ => none

/-- Greedy backtracking of `[^}]*` before the explanation key: among the
start offsets inside the brace-free run, the last one whose tail matches
wins. -/
def explanationSearch (r : List Char) : Option String :=
  let maxQ := (r.takeWhile (fun ch => ch != rbrace)).length
  (((List.range (maxQ + 1)).reverse).filterMap (fun q =>
    match listStripPrefix explKey (r.drop q) with
    | some r2 => matchExplTail r2
    | none => none)).head?

/-- The line-number prefix of the synthetic-finding regexes: key, colon and
the exact decimal digits of `n` (no digit-boundary check, as in the
source's interpolated regex). -/
def matchLineNumLit (n : Nat) (cs : List Char) : Option (List Char) :=
  match listStripPrefix lineNumberKey cs with
  | none => none
  | some r1 =>
    match r1.dropWhile jsWhitespace with
    | ':' :: r2 => listStripPrefix (toString n).data (r2.dropWhile jsWhitespace)
    | _ => none

/-- Scan for the first position where the explanation-recovery regex of the
stage-6 synthesizer matches, returning its capture. -/
def explanationForAux (n : Nat) : Nat → List Char → Option String
  | 0, _ => none
  | _, [] => none
  | fuel + 1, c :: cs =>
    match matchLineNumLit n (c :: cs) with
    | some r =>
      match explanationSearch r with
      | some e => some e
      | none => explanationForAux n fuel cs
    | none => explanationForAux n fuel cs

/-- Best-effort explanation for line `n` (the `explanationMatch` regex). -/
def explanationFor (n : Nat) (s : String) : Option String :=
  explanationForAux n (s.length + 1) s.data

/-- Terminator of the lazy snippet capture: closing quote, comma and the
explanation key. -/
def snippetTerminator (cs : List Char) : Bool :=
  match cs with
  | '"' :: r =>
    match r.dropWhile jsWhitespace with
    | ',' :: r2 => (listStripPrefix explKey (r2.dropWhile jsWhitespace)).isSome
    | _ => false
  | _ => false

/-- Lazy capture `(.*?)` of the snippet regex: shortest prefix whose
following characters match the terminator. -/
def lazyCaptureAux : Nat → List Char → List Char → Option String
  | 0, _, _ => none
  | fuel + 1, acc, cs =>
    if snippetTerminator cs then some (String.mk acc.reverse)
    else
      match cs with
      | [] => none
      | c :: rest => lazyCaptureAux fuel (c :: acc) rest

/-- One match attempt of the snippet-recovery regex at a position. -/
def matchSnippetAt (n : Nat) (cs : List Char) : Option String :=
  match matchLineNumLit n cs with
  | none => none
  | some r1 =>
    match r1.dropWhile jsWhitespace with
    | ',' :: r2 =>
      match listStripPrefix snippetKey (r2.dropWhile jsWhitespace) with
      | none => none
      | some r3 =>
        match r3.dropWhile jsWhitespace with
        | ':' :: r4 =>
          match r4.dropWhile jsWhitespace with
          | '"' :: r5 => lazyCaptureAux (r5.length + 1) [] r5
          | _ => none
        | _ => none
    | _ => none

/-- Scan for the first position where the snippet-recovery regex matches. -/
def snippetForAux (n : Nat) : Nat → List Char → Option String
  | 0, _ => none
  | _, [] => none
  | fuel + 1, c :: cs =>
    match matchSnippetAt n (c :: cs) with
    | some cap => some cap
    | none => snippetForAux n fuel cs

/-- Best-effort code snippet for line `n` (the `snippetRegex` of the SQL
agent). -/
def snippetFor (n : Nat) (s : String) : Option String :=
  snippetForAux n (s.length + 1) s.data

/-- `{` as a one-character string. -/
def lbraceStr : String := String.singleton lbrace

/-- `}` as a one-character string. -/
def rbraceStr : String := String.singleton rbrace

/-- JSON escaping of one character inside a serialized string (the control
characters other than the common three never occur in the modelled
values). -/
def escapeJsonChar (c : Char) : String :=
  if c == '"' then "\\\""
  else if c == '\\' then "\\\\"
  else if c == '\n' then "\\n"
  else if c == '\r' then "\\r"
  else if c == '\t' then "\\t"
  else String.singleton c

/-- A serialized, quoted JSON string. -/
def jsonQuote (s : String) : String :=
  "\"" ++ String.join (s.data.map escapeJsonChar) ++ "\""

mutual

/-- `JSON.stringify(v)`: `none` models the `undefined` result (which makes
the fallback code crash); `NaN` serializes as `null`; inside arrays
`undefined` serializes as `null`; inside objects `undefined` members are
dropped. -/
def stringifyJS : JSVal → Option String
  | .undefined => none
  | .null => some "null"
  | .bool b => some (if b then "true" else "false")
  | .num q => some (numRepr q)
  | .nan => some "null"
  | .str s => some (jsonQuote s)
  | .arr l => some ("[" ++ String.intercalate "," (stringifyArr l) ++ "]")
  | .obj kvs => some (lbraceStr ++ String.intercalate "," (stringifyObj kvs) ++ rbraceStr)

/-- Serialized array elements. -/
def stringifyArr : List JSVal → List String
  | [] => []
  | v :: vs =>
    (match stringifyJS v with
     | some s => s
     | none => "null") :: stringifyArr vs

/-- Serialized object members, dropping `undefined` values. -/
def stringifyObj : List (String × JSVal) → List String
  | [] => []
  | (k, v) :: kvs =>
    match stringifyJS v with
    | some s => (jsonQuote k ++ ":" ++ s) :: stringifyObj kvs
    | none => stringifyObj kvs

end

/-- Offsets at which `pat` occurs in `cs`. -/
def subOccurrences (pat cs : List Char) : List Nat :=
  (List.range (cs.length + 1)).filter (fun p => (listStripPrefix pat (cs.drop p)).isSome)

/-- The match of the fallback pattern (an opening bracket, anything, the
`vulnerability_type` key, anything, a closing bracket, with greedy gaps
spanning newlines) against a serialized response: from the first feasible
`[` to the last `]` of the text, provided the key occurs in between. -/
def arrayShapeMatch (s : String) : Option String :=
  let cs := s.data
  match lastIdxWhere (fun ch => ch == ']') cs with
  | none => none
  | some rIdx =>
    match ((subOccurrences vulnTypeKey cs).filter (fun p => p + vulnTypeKey.length ≤ rIdx)).getLast? with
    | none => none
    | some q =>
      match (cs.take q).findIdx? (fun ch => ch == '[') with
      | none => none
      | some i => some (String.mk ((cs.take (rIdx + 1)).drop i))

/-- The comparison underlying the `(a, b) => a.line_number - b.line_number`
sort of stage 6. -/
def findingLE (a b : Finding) : Prop := a.line_number ≤ b.line_number

instance : DecidableRel findingLE := fun a b => inferInstanceAs (Decidable (a.line_number ≤ b.line_number))

instance : IsTotal Finding findingLE := ⟨fun a b => le_total a.line_number b.line_number⟩

instance : IsTrans Finding findingLE := ⟨fun _ _ _ h1 h2 => le_trans h1 h2⟩

/-- The JavaScript `Array.prototype.sort` with an ascending numeric
comparator is specified to be stable; insertion sort is its denotation. -/
def sortFindingsByLine (l : List Finding) : List Finding :=
  List.insertionSort findingLE l

/-- Stage 1 of the extractor: trim, then markdown-fence unwrap. -/
def cleanedText (text : String) : String := unwrapCodeFence (jsTrim text)

/-- Index of the first character satisfying `p` (`String.indexOf` with a
one-character needle). -/
def firstCharIdx (p : Char → Bool) : List Char → Option Nat
  | [] => none
  | c :: rest => if p c then some 0 else (firstCharIdx p rest).map (fun i => i + 1)

/-- Stages 1–2 of the extractor: the empty-input guard, the fence unwrap
and the array-boundary trim (everything before the first `[` is dropped;
no `[` means nothing is recoverable). -/
def arrayPayload (text : String) : Option String :=
  if text = "" then none
  else
    match firstCharIdx (fun ch => ch == '[') (cleanedText text).data with
    | none => none
    | some i => some (String.mk ((cleanedText text).data.drop i))

/-- Stage 3: a direct structured parse, accepted only when it yields an
array. -/
def directParse (s : String) : Option (List JSVal) :=
  match jsonParse s with
  | some (.arr vs) => some vs
  | _ => none

/-- `cleaned.lastIndexOf(String.fromCharCode(125))`. -/
def lastBraceIdx (s : String) : Option Nat :=
  lastIdxWhere (fun ch => ch == rbrace) s.data

/-- Stage 4, truncation repair: when the trimmed text does not end with
`]`, truncate at the last `}` (required at index above 0), append a
closing `]` and retry the structured parse. -/
def repairParse (s : String) : Option (List JSVal) :=
  if lastCharIs (jsTrim s) ']' then none
  else
    match lastBraceIdx s with
    | none => none
    | some j => if 0 < j then directParse (String.mk (s.data.take (j + 1)) ++ "\n]") else none

/-- The shared tail of stages 3 and 4: keep candidates with an identifying
signal and normalize them. -/
def normFilterMap (p : AgentParams) (vs : List JSVal) : List Finding :=
  (vs.filter isValidVulnerability).map (normalizeVulnerability p)

/-- Stage 5, per-object regex recovery: each object-pattern match is parsed
on its own; candidates that fail to parse or carry no signal are dropped. -/
def stage5Vulns (p : AgentParams) (s : String) : List Finding :=
  (findVulnObjects s).filterMap (fun o =>
    match jsonParse o with
    | some v => if isValidVulnerability v then some (normalizeVulnerability p v) else none
    | none => none)

/-- The stage-6 synthetic minimal finding for an uncovered line number
(fixed type/severity/fix/confidence, best-effort explanation, and — for
the SQL agent only — a best-effort snippet). -/
def syntheticFinding (p : AgentParams) (s : String) (lineNum : Nat) : Finding :=
  normalizeVulnerability p (.obj
    [("vulnerability_type", .str p.defaultType),
     ("severity", .str p.synthSeverity),
     ("line_number", .num lineNum),
     ("code_snippet", .str (if p.synthUsesSnippet then (snippetFor lineNum s).getD "" else "")),
     ("explanation", .str ((explanationFor lineNum s).getD p.synthExplanation)),
     ("fix_suggestion", .str p.synthFix),
     ("confidence", .num (mkRat 9 10))])

/-- Stages 5 and 6 of the extractor: regex recovery, then — only when the
count of distinct textual line numbers exceeds the count of recovered
objects — synthesis of a finding per uncovered line number followed by the
stable sort on line number. -/
def stage56 (p : AgentParams) (s : String) : List Finding :=
  let foundLineNumbers := findLineNumbers s
  let vulns := stage5Vulns p s
  if vulns.length < foundLineNumbers.length then
    let extractedLines := vulns.map Finding.line_number
    let missingLines := foundLineNumbers.filter (fun (ln : Nat) => !(extractedLines.contains (Int.ofNat ln)))
    sortFindingsByLine (vulns ++ missingLines.map (syntheticFinding p s))
  else vulns

/-- `extractAndParseJSON` from the agent modules: the full escalation
pipeline (console logging elided). -/
def extractAndParseJSON (p : AgentParams) (text : String) : List Finding :=
  match arrayPayload text with
  | none => []
  | some s =>
    match directParse s with
    | some vs => normFilterMap p vs
    | none =>
      match repairParse s with
      | some vs => normFilterMap p vs
      | none => stage56 p s

/-- `addLineNumbers` from the agent modules: prefix every line with its
1-based number and a colon. -/
def addLineNumbers (code : String) : String :=
  String.intercalate "\n" ((code.splitOn "\n").enum.map
    (fun pr => toString (pr.1 + 1) ++ ": " ++ pr.2))

/-- `buildPrompt` from the agent modules.  The instruction template is
abridged to its structure (no theorem below inspects the prompt text);
the line-numbered code and line count are embedded as in the source. -/
def buildPrompt (code language : String) : String :=
  let numberedCode := addLineNumbers code
  let totalLines := (code.splitOn "\n").length
  "You are an expert security researcher. Find ALL vulnerabilities in this " ++
    language ++ " code (" ++ toString totalLines ++ " lines total).\n" ++
    numberedCode ++ "\nReturn ONLY a compact JSON array on a single line."

/-- `response.choices && response.choices[0]?.message?.content` from the
SQL agent resolver. -/
def sqlChoicesContent (r : JSVal) : JSVal :=
  jsAnd (jsGet r "choices") (jsOptGet (jsOptGet (jsIdx (jsGet r "choices") 0) "message") "content")

/-- `response.choices && response.choices[0]?.text` from the SQL agent
resolver. -/
def sqlChoicesText (r : JSVal) : JSVal :=
  jsAnd (jsGet r "choices") (jsOptGet (jsIdx (jsGet r "choices") 0) "text")

/-- The SQL agent response-text resolver: a string response is taken as-is;
otherwise a truthy response is probed with a bare `||` chain over the
candidate fields (no type check, and no serialization fallback). -/
def resolveSQLText (response : JSVal) : JSVal :=
  match response with
  | .str _ => response
  | _ =>
    if truthy response then
      jsOr (jsGet response "response") (jsOr (jsGet response "result")
        (jsOr (jsGet response "content") (jsOr (jsGet response "text")
          (jsOr (jsGet response "output") (jsOr (jsGet response "generated_text")
            (jsOr (sqlChoicesContent response) (sqlChoicesText response)))))))
    else .null

/-- The ordered candidate fields probed by the XSS/credentials resolver
loop. -/
def candList (r : JSVal) : List JSVal :=
  [jsGet r "response", jsGet r "result", jsGet r "content", jsGet r "text",
   jsGet r "output", jsGet r "generated_text",
   jsOptGet (jsOptGet (jsOptIdx (jsGet r "choices") 0) "message") "content",
   jsOptGet (jsOptIdx (jsGet r "choices") 0) "text"]

/-- `typeof v === 'object'` (true for objects, arrays and `null`). -/
def isObjectType : JSVal → Bool
  | .obj _ | .arr _ | .null => true
  | _ => false

/-- The XSS/credentials candidate loop: take the first string candidate,
or the first string found one level down (`candidate.response ||
candidate.text || candidate.content`) in a truthy object candidate. -/
def firstCandText : List JSVal → JSVal
  | [] => .null
  | c :: rest =>
    match c with
    | .str s => .str s
    | _ =>
      if truthy c && isObjectType c then
        match jsOr (jsGet c "response") (jsOr (jsGet c "text") (jsGet c "content")) with
        | .str s => .str s
        | _ => firstCandText rest
      else firstCandText rest

/-- The key scan over `response.response`: the first own property whose
value is a string containing `[`. -/
def keyScanVals : List JSVal → JSVal
  | [] => .null
  | .str s :: vs => if s.data.contains '[' then .str s else keyScanVals vs
  | _ :: vs => keyScanVals vs

/-- Own property values in key order (array elements for an array). -/
def objValues : JSVal → List JSVal
  | .obj kvs => kvs.map Prod.snd
  | .arr l => l
  | _ => []

/-- The XSS/credentials response-text resolver: the candidate loop, then —
when no truthy text was found and `response.response` is a truthy object —
the key scan.  (The serialization fallback lives in the detector body,
after this resolver.) -/
def resolveCandText (response : JSVal) : JSVal :=
  let fromLoop :=
    match response with
    | .str _ => response
    | _ => if truthy response then firstCandText (candList response) else .null
  if truthy fromLoop then fromLoop
  else if truthy (jsGet response "response") && isObjectType (jsGet response "response") then
    match keyScanVals (objValues (jsGet response "response")) with
    | .str s => .str s
    | _ => fromLoop
  else fromLoop

/-- The configuration-failure message thrown when the model capability is
absent. -/
def aiUnavailableMsg : String :=
  "AI binding not available. Make sure to run with --remote flag: npm run dev:remote"

/-- `detectSQLInjection`: empty-code short-circuit, fatal missing-binding
error, model invocation, resolver, extraction.  The result carries the
number of model invocations performed; a truthy non-string resolved value
makes `text.trim` throw inside the extractor, surfacing as the wrapped
catch error. -/
def detectSQLInjection (code _filename language : String)
    (ai : Option (String → JSVal)) : Except String (List Finding × Nat) :=
  if jsTrim code = "" then .ok ([], 0)
  else
    match ai with
    | none => .error aiUnavailableMsg
    | some run =>
      let response := run (buildPrompt code language)
      let responseText := resolveSQLText response
      if truthy responseText then
        match responseText with
        | .str s => .ok (extractAndParseJSON sqlAgent s, 1)
        | _ => .error (sqlAgent.failPrefix ++ "responseText.trim is not a function")
      else .ok ([], 1)

/-- Shared body of the XSS and credentials detectors: as the SQL detector,
but with the type-checked candidate-loop resolver and, when no text
resolves, the serialize-and-search fallback (`JSON.stringify` of the whole
response matched against the findings-array shape); an unserializable
(`undefined`) response makes `fullStr.match` throw, surfacing as the
wrapped catch error. -/
def detectCandAgent (p : AgentParams) (code language : String)
    (ai : Option (String → JSVal)) : Except String (List Finding × Nat) :=
  if jsTrim code = "" then .ok ([], 0)
  else
    match ai with
    | none => .error aiUnavailableMsg
    | some run =>
      let response := run (buildPrompt code language)
      let responseText := resolveCandText response
      if truthy responseText then
        match responseText with
        | .str s => .ok (extractAndParseJSON p s, 1)
        | _ => .error (p.failPrefix ++ "responseText.trim is not a function")
      else
        match stringifyJS response with
        | none => .error (p.failPrefix ++ "Cannot read properties of undefined")
        | some fullStr =>
          match arrayShapeMatch fullStr with
          | some m => .ok (extractAndParseJSON p m, 1)
          | none => .ok ([], 1)

/-- `detectXSS` from the XSS agent module. -/
def detectXSS (code _filename language : String)
    (ai : Option (String → JSVal)) : Except String (List Finding × Nat) :=
  detectCandAgent xssAgent code language ai

/-- `detectHardcodedCredentials` from the credentials agent module. -/
def detectHardcodedCredentials (code _filename language : String)
    (ai : Option (String → JSVal)) : Except String (List Finding × Nat) :=
  detectCandAgent credAgent code language ai

/-- `formatVulnerabilitiesForFrontend` applied to one normalized finding.
On the already-string fields `|| ''` is the identity and is written so. -/
def formatVuln (vuln : Finding) : FrontendVuln :=
  { vtype := if vuln.vulnerability_type = "" then "Unknown" else vuln.vulnerability_type
    severity := if vuln.severity = "" then "MEDIUM" else vuln.severity
    line := if vuln.line_number = 0 then 0 else vuln.line_number
    code_snippet := vuln.code_snippet
    message := if vuln.explanation = "" then "Vulnerability detected"
               else String.mk (vuln.explanation.data.take 100)
    explanation := vuln.explanation
    fix_suggestion := vuln.fix_suggestion
    confidence := if vuln.confidence = 0 then mkRat 1 2 else vuln.confidence }

/-- `formatVulnerabilitiesForFrontend` from the worker. -/
def formatVulnerabilitiesForFrontend (agentResults : List Finding) : List FrontendVuln :=
  agentResults.map formatVuln

/-- The comparison underlying the orchestrator sort
`(a, b) => a.line - b.line`. -/
def vulnLE (a b : FrontendVuln) : Prop := a.line ≤ b.line

instance : DecidableRel vulnLE := fun a b => inferInstanceAs (Decidable (a.line ≤ b.line))

instance : IsTotal FrontendVuln vulnLE := ⟨fun a b => le_total a.line b.line⟩

instance : IsTrans FrontendVuln vulnLE := ⟨fun _ _ _ h1 h2 => le_trans h1 h2⟩

/-- The orchestrator's stable ascending sort on `line`. -/
def sortVulnsByLine (l : List FrontendVuln) : List FrontendVuln :=
  List.insertionSort vulnLE l

/-- The result-assembly step of `POST /api/scan`: concatenate the three
detector outputs in invocation order (`Promise.all` preserves positional
order regardless of completion order), format for the frontend, and sort
by line. -/
def scanVulnerabilities (sqlInjectionResults xssResults credentialsResults : List Finding) :
    List FrontendVuln :=
  sortVulnsByLine (formatVulnerabilitiesForFrontend
    (sqlInjectionResults ++ xssResults ++ credentialsResults))

set_option maxRecDepth 100000

instance : DecidableEq (Except String (List Finding × Nat)) := fun
  | .ok a, .ok b => decidable_of_iff (a = b) (by simp)
  | .error a, .error b => decidable_of_iff (a = b) (by simp)
  | .ok _, .error _ => isFalse (by simp)
  | .error _, .ok _ => isFalse (by simp)

/-- A canonical finding viewed back as the JavaScript object the normalizer
receives. -/
def findingToJS (f : Finding) : JSVal := .obj
  [("vulnerability_type", .str f.vulnerability_type), ("severity", .str f.severity),
   ("line_number", .num (f.line_number : ℚ)), ("code_snippet", .str f.code_snippet),
   ("explanation", .str f.explanation), ("fix_suggestion", .str f.fix_suggestion),
   ("confidence", .num f.confidence)]

theorem filter_orderedInsert_pos {α : Type} (r : α → α → Prop) [DecidableRel r]
    (p : α → Bool) (x : α) (l : List α) (hx : p x = true)
    (hkey : ∀ y, p y = true → r x y) :
    (l.orderedInsert r x).filter p = x :: l.filter p := by
  induction l with
  | nil => simp [List.orderedInsert, hx]
  | cons b t ih =>
    by_cases hrb : r x b
    · simp [List.orderedInsert, hrb, List.filter_cons, hx]
    · have hpb : p b = false := by
        cases hpbv : p b
        · rfl
        · exact absurd (hkey b hpbv) hrb
      simp [List.orderedInsert, hrb, List.filter_cons, hpb, ih]

theorem filter_orderedInsert_neg {α : Type} (r : α → α → Prop) [DecidableRel r]
    (p : α → Bool) (x : α) (l : List α) (hx : p x = false) :
    (l.orderedInsert r x).filter p = l.filter p := by
  induction l with
  | nil => simp [List.orderedInsert, hx]
  | cons b t ih =>
    by_cases hrb : r x b
    · simp [List.orderedInsert, hrb, List.filter_cons, hx]
    · simp [List.orderedInsert, hrb, List.filter_cons, ih]

theorem filter_insertionSort {α : Type} (r : α → α → Prop) [DecidableRel r]
    (p : α → Bool) (l : List α)
    (hkey : ∀ x y, p x = true → p y = true → r x y) :
    (List.insertionSort r l).filter p = l.filter p := by
  induction l with
  | nil => rfl
  | cons b t ih =>
    cases hpb : p b
    · rw [List.insertionSort, filter_orderedInsert_neg r p b _ hpb, ih, List.filter_cons]
      simp [hpb]
    · rw [List.insertionSort,
        filter_orderedInsert_pos r p b _ hpb (fun y hy => hkey b y hpb hy), ih, List.filter_cons]
      simp [hpb]

theorem firstCharIdx_none (p : Char → Bool) (l : List Char)
    (h : ∀ x ∈ l, p x = false) : firstCharIdx p l = none := by
  induction l with
  | nil => rfl
  | cons b t ih =>
    rw [firstCharIdx, h b (List.mem_cons_self b t),
      ih (fun x hx => h x (List.mem_cons_of_mem b hx))]
    rfl

/-- Claim C2: for every triple of detector outputs, the orchestrator output
is the formatted merge of the three lists (SQL injection, then XSS, then
credentials — `Promise.all` preserves invocation order for any completion
order), sorted ascending on the line field; the sort is stable, so the
findings with any given line number appear exactly as in the merged
detector-order list. -/
theorem claim_C2 (sqlResults xssResults credResults : List Finding) :
    List.Sorted vulnLE (scanVulnerabilities sqlResults xssResults credResults) ∧
    (scanVulnerabilities sqlResults xssResults credResults).Perm
      (formatVulnerabilitiesForFrontend (sqlResults ++ xssResults ++ credResults)) ∧
    ∀ n : Int,
      (scanVulnerabilities sqlResults xssResults credResults).filter (fun v => v.line == n) =
        (formatVulnerabilitiesForFrontend (sqlResults ++ xssResults ++ credResults)).filter
          (fun v => v.line == n) := by
  refine ⟨List.sorted_insertionSort vulnLE _, List.perm_insertionSort vulnLE _, ?_⟩
  intro n
  apply filter_insertionSort
  intro x y hx hy
  have hx' : x.line = n := by simpa using hx
  have hy' : y.line = n := by simpa using hy
  show x.line ≤ y.line
  rw [hx', hy']

/-- Claim C6: code that is empty after trimming makes each of the three
detectors return an empty finding list with zero model invocations,
whatever the model binding is. -/
theorem claim_C6 (code filename language : String) (ai : Option (String → JSVal))
    (h : jsTrim code = "") :
    detectSQLInjection code filename language ai = .ok ([], 0) ∧
    detectXSS code filename language ai = .ok ([], 0) ∧
    detectHardcodedCredentials code filename language ai = .ok ([], 0) := by
  refine ⟨?_, ?_, ?_⟩ <;>
    simp [detectSQLInjection, detectXSS, detectHardcodedCredentials, detectCandAgent, h]

theorem claim_C6_witness :
    detectSQLInjection " \n " "f.py" "python" none = .ok ([], 0) ∧
    detectXSS " \n " "f.py" "python" none = .ok ([], 0) ∧
    detectHardcodedCredentials " \n " "f.py" "python" none = .ok ([], 0) :=
  claim_C6 " \n " "f.py" "python" none (by decide)

/-- Claim C7: with non-empty code and no model binding every detector
throws the configuration error; by contrast, a resolvable response whose
text yields nothing parseable gives an empty list without an error. -/
theorem claim_C7 (code filename language : String) (h : jsTrim code ≠ "") :
    detectSQLInjection code filename language none = .error aiUnavailableMsg ∧
    detectXSS code filename language none = .error aiUnavailableMsg ∧
    detectHardcodedCredentials code filename language none = .error aiUnavailableMsg ∧
    detectSQLInjection code filename language
      (some fun _ => .str "I cannot find any issues.") = .ok ([], 1) := by
  refine ⟨?_, ?_, ?_, ?_⟩
  · unfold detectSQLInjection; rw [if_neg h]
  · unfold detectXSS detectCandAgent; rw [if_neg h]
  · unfold detectHardcodedCredentials detectCandAgent; rw [if_neg h]
  · unfold detectSQLInjection
    rw [if_neg h]
    have hext : extractAndParseJSON sqlAgent "I cannot find any issues." = [] := by decide
    simp [resolveSQLText, truthy, hext]

theorem claim_C7_witness :
    detectSQLInjection "x = 1" "f.py" "python" none = .error aiUnavailableMsg ∧
    detectSQLInjection "x = 1" "f.py" "python"
      (some fun _ => .str "I cannot find any issues.") = .ok ([], 1) :=
  ⟨(claim_C7 "x = 1" "f.py" "python" (by decide)).1,
   (claim_C7 "x = 1" "f.py" "python" (by decide)).2.2.2⟩

/-- Claim C8: resolved text containing no `[` after the optional fence
unwrap makes the extractor return an empty list at the array-boundary
stage. -/
theorem claim_C8 (p : AgentParams) (text : String)
    (h : '[' ∉ (cleanedText text).data) :
    extractAndParseJSON p text = [] := by
  have hfi : firstCharIdx (fun ch => ch == '[') (cleanedText text).data = none := by
    apply firstCharIdx_none
    intro x hx
    cases hbe : (x == '[')
    · rfl
    · exact absurd (by rw [eq_of_beq hbe] at hx; exact hx) h
  have hap : arrayPayload text = none := by
    unfold arrayPayload
    by_cases ht : text = ""
    · rw [if_pos ht]
    · rw [if_neg ht, hfi]
  unfold extractAndParseJSON
  rw [hap]

theorem claim_C8_witness :
    extractAndParseJSON sqlAgent "I cannot find any issues." = [] :=
  claim_C8 sqlAgent "I cannot find any issues." (by decide)

/-- Claim C10: the frontend formatting step maps a zero confidence to 0.5
and keeps any nonzero confidence; the line number (zero included) passes
through unchanged; an empty explanation becomes the fixed message. -/
theorem claim_C10 (vuln : Finding) :
    ((formatVuln vuln).confidence = if vuln.confidence = 0 then mkRat 1 2 else vuln.confidence) ∧
    (vuln.confidence ≠ 0 → (formatVuln vuln).confidence = vuln.confidence) ∧
    (formatVuln vuln).line = vuln.line_number ∧
    (vuln.explanation = "" → (formatVuln vuln).message = "Vulnerability detected") := by
  refine ⟨rfl, ?_, ?_, ?_⟩
  · intro h
    simp [formatVuln, h]
  · by_cases h : vuln.line_number = 0 <;> simp [formatVuln, h]
  · intro h
    simp [formatVuln, h]

theorem claim_C10_witness :
    (formatVuln ⟨"SQL Injection", "HIGH", 7, "", "", "", mkRat 3 4⟩).confidence = mkRat 3 4 ∧
    (formatVuln ⟨"SQL Injection", "HIGH", 0, "", "", "", 0⟩).message = "Vulnerability detected" :=
  ⟨(claim_C10 ⟨"SQL Injection", "HIGH", 7, "", "", "", mkRat 3 4⟩).2.1 (by decide),
   (claim_C10 ⟨"SQL Injection", "HIGH", 0, "", "", "", 0⟩).2.2.2 rfl⟩

/-- Claim C1, counterexample: a candidate whose `line_number` field is the
number `-5` is normalized to `line_number = -5`, which violates the claimed
`line_number ≥ 0` invariant (`parseInt` preserves the sign and the `|| 0`
default only catches `NaN` and `0`). -/
theorem claim_C1_counterexample :
    (normalizeVulnerability sqlAgent (.obj [("line_number", .num (-5))])).line_number = -5 ∧
    (normalizeVulnerability sqlAgent (.obj [("line_number", .num (-5))])).line_number < 0 := by
  constructor <;> decide

/-- Claim C1, amended: for every raw candidate the normalizer yields a
severity in the four-value enumeration (with HIGH when the uppercased,
trimmed input is not in the enumeration), a confidence in [0, 1]
(non-numeric input becoming 0.85, numeric input clamped), and an integer
`line_number` with non-numeric input becoming 0 — but a parsable negative
`line_number` passes through unchanged, so `line_number ≥ 0` is not
guaranteed. -/
theorem claim_C1_amended (vuln : JSVal) :
    (normalizeVulnerability sqlAgent vuln).severity ∈ validSeverities ∧
    (jsTrim (strToUpper (jsToString (jsOr (jsGet vuln "severity") (.str "")))) ∉ validSeverities →
      (normalizeVulnerability sqlAgent vuln).severity = "HIGH") ∧
    0 ≤ (normalizeVulnerability sqlAgent vuln).confidence ∧
    (normalizeVulnerability sqlAgent vuln).confidence ≤ 1 ∧
    (parseFloatJS (jsGet vuln "confidence") = none →
      (normalizeVulnerability sqlAgent vuln).confidence = mkRat 17 20) ∧
    (parseIntJS (jsGet vuln "line_number") = none →
      (normalizeVulnerability sqlAgent vuln).line_number = 0) := by
  refine ⟨?_, ?_, ?_, ?_, ?_, ?_⟩
  · show normalizeSeverity (jsGet vuln "severity") ∈ validSeverities
    simp only [normalizeSeverity]
    split
    · assumption
    · decide
  · intro hno
    show normalizeSeverity (jsGet vuln "severity") = "HIGH"
    simp only [normalizeSeverity]
    rw [if_neg hno]
  · show 0 ≤ normalizeConfidence (jsGet vuln "confidence")
    simp only [normalizeConfidence]
    cases parseFloatJS (jsGet vuln "confidence") with
    | none => decide
    | some q =>
      show (0 : ℚ) ≤
        if (if (1 : ℚ) ≤ q then 1 else q) ≤ 0 then 0 else if (1 : ℚ) ≤ q then 1 else q
      split_ifs <;> linarith
  · show normalizeConfidence (jsGet vuln "confidence") ≤ 1
    simp only [normalizeConfidence]
    cases parseFloatJS (jsGet vuln "confidence") with
    | none => decide
    | some q =>
      show (if (if (1 : ℚ) ≤ q then 1 else q) ≤ 0 then 0 else if (1 : ℚ) ≤ q then 1 else q) ≤
        (1 : ℚ)
      split_ifs <;> linarith
  · intro h
    show normalizeConfidence (jsGet vuln "confidence") = mkRat 17 20
    simp only [normalizeConfidence]
    rw [h]
  · intro h
    show (parseIntJS (jsGet vuln "line_number")).getD 0 = 0
    rw [h]
    rfl

theorem claim_C1_witness :
    (normalizeVulnerability sqlAgent (JSVal.obj [])).severity ∈ validSeverities ∧
    (normalizeVulnerability sqlAgent (JSVal.obj [])).confidence = mkRat 17 20 ∧
    (normalizeVulnerability sqlAgent (JSVal.obj [])).line_number = 0 :=
  ⟨(claim_C1_amended (JSVal.obj [])).1,
   (claim_C1_amended (JSVal.obj [])).2.2.2.2.1 (by decide),
   (claim_C1_amended (JSVal.obj [])).2.2.2.2.2 (by decide)⟩

/-- Claim C9: the normalizer is idempotent — a finding already in canonical
form (severity in the enumeration, confidence a number in [0, 1],
line number an integer at least 0, string text fields, non-empty
vulnerability type) normalizes to an identical record. -/
theorem claim_C9 (p : AgentParams) (f : Finding)
    (hty : f.vulnerability_type ≠ "")
    (hsev : f.severity ∈ validSeverities)
    (hline : 0 ≤ f.line_number)
    (hconf0 : 0 ≤ f.confidence) (hconf1 : f.confidence ≤ 1) :
    normalizeVulnerability p (findingToJS f) = f := by
  obtain ⟨ty, sev, ln, cs, ex, fs, cf⟩ := f
  simp only [ne_eq] at hty
  simp only at hsev hline hconf0 hconf1
  have htr : truthy (.str ty) = true := by simp [truthy, hty]
  simp only [normalizeVulnerability, Finding.mk.injEq]
  refine ⟨?_, ?_, ?_, ?_, ?_, ?_, ?_⟩
  · have hg : jsGet (findingToJS ⟨ty, sev, ln, cs, ex, fs, cf⟩) "vulnerability_type" = .str ty :=
      rfl
    rw [hg, jsOr, if_pos htr]
    rfl
  · have hg : jsGet (findingToJS ⟨ty, sev, ln, cs, ex, fs, cf⟩) "severity" = .str sev := rfl
    rw [hg]
    simp only [validSeverities, List.mem_cons, List.not_mem_nil, or_false] at hsev
    rcases hsev with h | h | h | h <;> (subst h; decide)
  · have hg : jsGet (findingToJS ⟨ty, sev, ln, cs, ex, fs, cf⟩) "line_number" = .num (ln : ℚ) :=
      rfl
    rw [hg]
    simp [parseIntJS, ratTrunc]
  · have hg : jsGet (findingToJS ⟨ty, sev, ln, cs, ex, fs, cf⟩) "code_snippet" = .str cs := rfl
    rw [hg]
    by_cases hcs : cs = ""
    · subst hcs; decide
    · rw [jsOr, if_pos (by simp [truthy, hcs])]
      rfl
  · have hg : jsGet (findingToJS ⟨ty, sev, ln, cs, ex, fs, cf⟩) "explanation" = .str ex := rfl
    rw [hg]
    by_cases hx : ex = ""
    · subst hx; decide
    · rw [jsOr, if_pos (by simp [truthy, hx])]
      rfl
  · have hg : jsGet (findingToJS ⟨ty, sev, ln, cs, ex, fs, cf⟩) "fix_suggestion" = .str fs := rfl
    rw [hg]
    by_cases hx : fs = ""
    · subst hx; decide
    · rw [jsOr, if_pos (by simp [truthy, hx])]
      rfl
  · have hg : jsGet (findingToJS ⟨ty, sev, ln, cs, ex, fs, cf⟩) "confidence" = .num cf := rfl
    rw [hg]
    show normalizeConfidence (.num cf) = cf
    simp only [normalizeConfidence, parseFloatJS]
    show (if (if (1 : ℚ) ≤ cf then 1 else cf) ≤ 0 then 0 else if (1 : ℚ) ≤ cf then 1 else cf) = cf
    split_ifs <;> linarith

theorem claim_C9_witness :
    normalizeVulnerability sqlAgent
      (findingToJS ⟨"SQL Injection", "CRITICAL", 7, "q = 1", "concat", "param", mkRat 19 20⟩) =
      ⟨"SQL Injection", "CRITICAL", 7, "q = 1", "concat", "param", mkRat 19 20⟩ :=
  claim_C9 sqlAgent ⟨"SQL Injection", "CRITICAL", 7, "q = 1", "concat", "param", mkRat 19 20⟩
    (by decide) (by decide) (by decide) (by decide) (by decide)

/-- Claim C4: when the array payload fails the direct parse and does not
end with `]`, the extractor truncates at the last `}` (at an index above
0), appends a closing `]`, and retries the structured parse; when that
retry yields an array, the output is exactly its normalized valid elements
— the complete object literals before the truncation point, the trailing
incomplete object dropped. -/
theorem claim_C4 (text s : String) (j : Nat)
    (h1 : arrayPayload text = some s)
    (h2 : (directParse s).isSome = false)
    (h3 : lastCharIs (jsTrim s) ']' = false)
    (h4 : lastBraceIdx s = some j) (h5 : 0 < j)
    (h6 : (directParse (String.mk (s.data.take (j + 1)) ++ "\n]")).isSome = true) :
    extractAndParseJSON sqlAgent text =
      normFilterMap sqlAgent
        ((directParse (String.mk (s.data.take (j + 1)) ++ "\n]")).getD []) := by
  have h2n : directParse s = none := by
    cases hx : directParse s
    · rfl
    · rw [hx] at h2; exact absurd h2 (by simp)
  obtain ⟨vs, hvs⟩ := Option.isSome_iff_exists.mp h6
  have hrep : repairParse s = some vs := by
    unfold repairParse
    rw [if_neg (by simp [h3])]
    simp only [h4, if_pos h5, hvs]
  unfold extractAndParseJSON
  simp only [h1, h2n, hrep, hvs, Option.getD_some]

theorem claim_C4_witness :
    extractAndParseJSON sqlAgent
        "[\x7b\"vulnerability_type\":\"SQL Injection\",\"severity\":\"HIGH\",\"line_number\":5,\"confidence\":0.9\x7d,\x7b\"vulnerability_type\":\"SQL Injection\",\"severity\":\"LOW\",\"line_number\":9,\"confidence\":0.8\x7d,\x7b\"vulnerability_type\":\"SQL" =
      normFilterMap sqlAgent
        ((directParse (String.mk
          ("[\x7b\"vulnerability_type\":\"SQL Injection\",\"severity\":\"HIGH\",\"line_number\":5,\"confidence\":0.9\x7d,\x7b\"vulnerability_type\":\"SQL Injection\",\"severity\":\"LOW\",\"line_number\":9,\"confidence\":0.8\x7d,\x7b\"vulnerability_type\":\"SQL".data.take (178 + 1)) ++ "\n]")).getD []) ∧
    (extractAndParseJSON sqlAgent
        "[\x7b\"vulnerability_type\":\"SQL Injection\",\"severity\":\"HIGH\",\"line_number\":5,\"confidence\":0.9\x7d,\x7b\"vulnerability_type\":\"SQL Injection\",\"severity\":\"LOW\",\"line_number\":9,\"confidence\":0.8\x7d,\x7b\"vulnerability_type\":\"SQL").map
      Finding.line_number = [5, 9] :=
  ⟨claim_C4
      "[\x7b\"vulnerability_type\":\"SQL Injection\",\"severity\":\"HIGH\",\"line_number\":5,\"confidence\":0.9\x7d,\x7b\"vulnerability_type\":\"SQL Injection\",\"severity\":\"LOW\",\"line_number\":9,\"confidence\":0.8\x7d,\x7b\"vulnerability_type\":\"SQL"
      "[\x7b\"vulnerability_type\":\"SQL Injection\",\"severity\":\"HIGH\",\"line_number\":5,\"confidence\":0.9\x7d,\x7b\"vulnerability_type\":\"SQL Injection\",\"severity\":\"LOW\",\"line_number\":9,\"confidence\":0.8\x7d,\x7b\"vulnerability_type\":\"SQL"
      178 (by decide) (by decide) (by decide) (by decide) (by decide) (by decide),
   by decide⟩

theorem syntheticFinding_line (p : AgentParams) (s : String) (n : Nat) :
    (syntheticFinding p s n).line_number = Int.ofNat n := by
  simp [syntheticFinding, normalizeVulnerability, jsGet, parseIntJS, ratTrunc]

/-- Claim C5: when stages 3 and 4 fail and the stage-6 reconciliation
branch applies (more distinct textual line numbers than stage-5 objects),
the line numbers of the extractor output form a superset of the distinct
`"line_number": <digits>` values in the text, with the stage-6 synthetic
finding present for every line number not covered by a stage-5 object. -/
theorem claim_C5 (text s : String)
    (h1 : arrayPayload text = some s)
    (h2 : (directParse s).isSome = false)
    (h3 : (repairParse s).isSome = false)
    (h4 : (stage5Vulns sqlAgent s).length < (findLineNumbers s).length) :
    (∀ n ∈ findLineNumbers s,
      Int.ofNat n ∈ (extractAndParseJSON sqlAgent text).map Finding.line_number) ∧
    (∀ n ∈ findLineNumbers s,
      Int.ofNat n ∉ (stage5Vulns sqlAgent s).map Finding.line_number →
      syntheticFinding sqlAgent s n ∈ extractAndParseJSON sqlAgent text) := by
  have h2n : directParse s = none := by
    cases hx : directParse s
    · rfl
    · rw [hx] at h2; exact absurd h2 (by simp)
  have h3n : repairParse s = none := by
    cases hx : repairParse s
    · rfl
    · rw [hx] at h3; exact absurd h3 (by simp)
  have hex : extractAndParseJSON sqlAgent text = stage56 sqlAgent s := by
    unfold extractAndParseJSON
    simp only [h1, h2n, h3n]
  have hst : stage56 sqlAgent s =
      sortFindingsByLine (stage5Vulns sqlAgent s ++
        ((findLineNumbers s).filter (fun ln =>
          !(((stage5Vulns sqlAgent s).map Finding.line_number).contains (Int.ofNat ln)))).map
            (syntheticFinding sqlAgent s)) := by
    simp only [stage56]
    rw [if_pos h4]
  have hperm :
      (stage56 sqlAgent s).Perm (stage5Vulns sqlAgent s ++
        ((findLineNumbers s).filter (fun ln =>
          !(((stage5Vulns sqlAgent s).map Finding.line_number).contains (Int.ofNat ln)))).map
            (syntheticFinding sqlAgent s)) := by
    rw [hst]
    exact List.perm_insertionSort findingLE _
  constructor
  · intro n hn
    rw [hex]
    by_cases hm : Int.ofNat n ∈ (stage5Vulns sqlAgent s).map Finding.line_number
    · exact ((hperm.map Finding.line_number).mem_iff).mpr
        (by rw [List.map_append]; exact List.mem_append_left _ hm)
    · have hcont : ((stage5Vulns sqlAgent s).map Finding.line_number).contains (Int.ofNat n) =
          false := by
        cases hxx : ((stage5Vulns sqlAgent s).map Finding.line_number).contains (Int.ofNat n)
        · rfl
        · exact absurd (List.elem_iff.mp hxx) hm
      have hfm : n ∈ (findLineNumbers s).filter (fun ln =>
          !(((stage5Vulns sqlAgent s).map Finding.line_number).contains (Int.ofNat ln))) :=
        List.mem_filter.mpr ⟨hn, by rw [hcont]; rfl⟩
      refine ((hperm.map Finding.line_number).mem_iff).mpr ?_
      rw [List.map_append]
      refine List.mem_append_right _ ?_
      refine List.mem_map.mpr ⟨syntheticFinding sqlAgent s n, List.mem_map_of_mem _ hfm, ?_⟩
      exact syntheticFinding_line sqlAgent s n
  · intro n hn hm
    rw [hex]
    have hcont : ((stage5Vulns sqlAgent s).map Finding.line_number).contains (Int.ofNat n) =
        false := by
      cases hxx : ((stage5Vulns sqlAgent s).map Finding.line_number).contains (Int.ofNat n)
      · rfl
      · exact absurd (List.elem_iff.mp hxx) hm
    have hfm : n ∈ (findLineNumbers s).filter (fun ln =>
        !(((stage5Vulns sqlAgent s).map Finding.line_number).contains (Int.ofNat ln))) :=
      List.mem_filter.mpr ⟨hn, by rw [hcont]; rfl⟩
    exact hperm.mem_iff.mpr (List.mem_append_right _ (List.mem_map_of_mem _ hfm))

theorem claim_C5_witness :
    Int.ofNat 7 ∈ (extractAndParseJSON sqlAgent
      "[\x7b\"vulnerability_type\":\"SQL Injection\",\"line_number\":3\x7d,\x7b\"vulnerability_type\":\"SQL Injection\",\"line_number\":7,\"explanation\":bad\x7d,").map
        Finding.line_number :=
  (claim_C5
    "[\x7b\"vulnerability_type\":\"SQL Injection\",\"line_number\":3\x7d,\x7b\"vulnerability_type\":\"SQL Injection\",\"line_number\":7,\"explanation\":bad\x7d,"
    "[\x7b\"vulnerability_type\":\"SQL Injection\",\"line_number\":3\x7d,\x7b\"vulnerability_type\":\"SQL Injection\",\"line_number\":7,\"explanation\":bad\x7d,"
    (by decide) (by decide) (by decide) (by decide)).1 7 (by decide)

/-- Claim C3, counterexample: a response object carrying the findings array
under an unprobed key resolves no text in any detector; the XSS detector
recovers a finding through its serialize-and-search fallback, but the SQL
injection detector — which the claim also covers — returns an empty list
without attempting any serialization, so the recoverable finding is lost
there. -/
theorem claim_C3_counterexample :
    detectSQLInjection "x = 1" "f.js" "javascript"
      (some fun _ => JSVal.obj [("foo", .arr [.obj
        [("vulnerability_type", .str "SQL Injection"), ("line_number", .num 3)]])]) =
      .ok ([], 1) ∧
    detectXSS "x = 1" "f.js" "javascript"
      (some fun _ => JSVal.obj [("foo", .arr [.obj
        [("vulnerability_type", .str "SQL Injection"), ("line_number", .num 3)]])]) =
      .ok ([⟨"SQL Injection", "HIGH", 3, "", "", "", mkRat 17 20⟩], 1) := by
  constructor <;> decide

/-- Claim C3, amended: only the XSS and credentials detectors attempt the
last-resort serialization of the entire response (searching the serialized
text for a findings-array-shaped substring, extracting from the match when
one exists and returning an empty list otherwise); the SQL injection
detector returns an empty finding list as soon as its probe chain resolves
no text, attempting no serialization.  In all cases where the probes
exhaust on a serializable response, the detectors return an empty list (or
the fallback extraction) rather than an error. -/
theorem claim_C3_amended (code filename language : String) (r : JSVal)
    (hc : jsTrim code ≠ "") :
    (truthy (resolveSQLText r) = false →
      detectSQLInjection code filename language (some fun _ => r) = .ok ([], 1)) ∧
    (truthy (resolveCandText r) = false →
      ∀ fullStr, stringifyJS r = some fullStr →
        (∀ m, arrayShapeMatch fullStr = some m →
          detectXSS code filename language (some fun _ => r) =
            .ok (extractAndParseJSON xssAgent m, 1) ∧
          detectHardcodedCredentials code filename language (some fun _ => r) =
            .ok (extractAndParseJSON credAgent m, 1)) ∧
        (arrayShapeMatch fullStr = none →
          detectXSS code filename language (some fun _ => r) = .ok ([], 1) ∧
          detectHardcodedCredentials code filename language (some fun _ => r) = .ok ([], 1))) := by
  constructor
  · intro hsql
    unfold detectSQLInjection
    rw [if_neg hc]
    simp [hsql]
  · intro hcand fullStr hstr
    constructor
    · intro m hm
      constructor
      · unfold detectXSS detectCandAgent
        rw [if_neg hc]
        simp [hcand, hstr, hm]
      · unfold detectHardcodedCredentials detectCandAgent
        rw [if_neg hc]
        simp [hcand, hstr, hm]
    · intro hm
      constructor
      · unfold detectXSS detectCandAgent
        rw [if_neg hc]
        simp [hcand, hstr, hm]
      · unfold detectHardcodedCredentials detectCandAgent
        rw [if_neg hc]
        simp [hcand, hstr, hm]

theorem claim_C3_witness :
    detectSQLInjection "x = 1" "f.js" "javascript"
      (some fun _ => JSVal.obj [("bar", .arr [.obj
        [("vulnerability_type", .str "SQL Injection"), ("line_number", .num 4)]])]) =
      .ok ([], 1) ∧
    detectXSS "x = 1" "f.js" "javascript"
      (some fun _ => JSVal.obj [("bar", .arr [.obj
        [("vulnerability_type", .str "SQL Injection"), ("line_number", .num 4)]])]) =
      .ok (extractAndParseJSON xssAgent
        "[\x7b\"vulnerability_type\":\"SQL Injection\",\"line_number\":4\x7d]", 1) :=
  ⟨(claim_C3_amended "x = 1" "f.js" "javascript"
      (JSVal.obj [("bar", .arr [.obj
        [("vulnerability_type", .str "SQL Injection"), ("line_number", .num 4)]])])
      (by decide)).1 (by decide),
   (((claim_C3_amended "x = 1" "f.js" "javascript"
      (JSVal.obj [("bar", .arr [.obj
        [("vulnerability_type", .str "SQL Injection"), ("line_number", .num 4)]])])
      (by decide)).2 (by decide)
      "\x7b\"bar\":[\x7b\"vulnerability_type\":\"SQL Injection\",\"line_number\":4\x7d]\x7d"
      (by decide)).1
      "[\x7b\"vulnerability_type\":\"SQL Injection\",\"line_number\":4\x7d]" (by decide)).1⟩
